import Mathlib

/-!
Verification of the authenticated CRUD backend in `backend/index.js`
(API-key manager, MongoDB variant 2, the latest variant in the file,
lines 269-430; the create and auth code of Mongo variant 1 is textually
identical).

The store is modelled as a list of documents; a document is an
association list from field names to JSON values, with JavaScript
object semantics (a later assignment overrides an earlier key).
Token verification by the external identity provider is modelled as an
abstract function `verify : String → Option String` returning the
`sub` claim on success.
-/

set_option autoImplicit false

namespace ApiKeys

/-- A JSON value as it appears in request bodies and stored documents. -/
inductive JVal where
  | str : String → JVal
  | num : Int → JVal
  | bool : Bool → JVal
  | null : JVal
  deriving DecidableEq, Repr

/-- A document: a JavaScript object / Mongo document, as an association
list. Lookup returns the first binding of a key. -/
abbrev Doc := List (String × JVal)

/-- Field lookup in a document (first binding wins); `none` models a
JavaScript `undefined` (field absent). -/
def getField (d : Doc) (k : String) : Option JVal :=
  match d with
  | [] => none
  | (k', v) :: rest => if k' = k then some v else getField rest k

/-- Drop every binding of key `k` from a document. -/
def removeField (d : Doc) (k : String) : Doc :=
  match d with
  | [] => []
  | (k1, v) :: rest => if k1 = k then removeField rest k else (k1, v) :: removeField rest k

/-- JavaScript property assignment `obj[k] = v`: every earlier binding of
`k` is removed and the new one appended, so that lookup of `k` yields `v`
and every other key is untouched. -/
def setField (d : Doc) (k : String) (v : JVal) : Doc :=
  removeField d k ++ [(k, v)]

/-- The document built by `{ ...req.body, user_id: req.userId }` in the
create handler: the request body with `user_id` force-set to the verified
subject identifier (source line 365). -/
def mergeOwner (body : Doc) (u : String) : Doc :=
  setField body "user_id" (JVal.str u)

/-- Mongo `$set` with update document `fields` applied to a stored
document (source line 404). -/
def applySet (fields : Doc) (d : Doc) : Doc :=
  fields.foldl (fun acc p => setField acc p.1 p.2) d

/-- The Mongo filter `{ id: req.params.id, user_id: req.userId }` used by
the update and delete handlers (source lines 403 and 417). -/
def matchesFilter (d : Doc) (pid u : String) : Bool :=
  getField d "id" == some (JVal.str pid) && getField d "user_id" == some (JVal.str u)

/-- `keysCollection.find({ user_id: req.userId })` (source line 356). -/
def findUser (store : List Doc) (u : String) : List Doc :=
  store.filter (fun d => getField d "user_id" == some (JVal.str u))

/-- `keysCollection.updateOne(filter, { $set: fields })`: update the first
document matching the filter; `none` models `matchedCount === 0`. -/
def updateFirst (store : List Doc) (pid u : String) (fields : Doc) : Option (List Doc) :=
  match store with
  | [] => none
  | d :: rest =>
    if matchesFilter d pid u then some (applySet fields d :: rest)
    else (updateFirst rest pid u fields).map (fun s => d :: s)

/-- `keysCollection.deleteOne(filter)`: remove the first document matching
the filter; `none` models `deletedCount === 0`. -/
def deleteFirst (store : List Doc) (pid u : String) : Option (List Doc) :=
  match store with
  | [] => none
  | d :: rest =>
    if matchesFilter d pid u then some rest
    else (deleteFirst rest pid u).map (fun s => d :: s)

/-- An inbound HTTP request: the `Authorization` header (if present) and
the parsed JSON body. -/
structure Request where
  authorization : Option String
  body : Doc
  deriving Repr

/-- Outcome of the authentication middleware. -/
inductive AuthResult where
  | unauthorized
  | ok (userId : String)
  deriving DecidableEq, Repr

/-- `authHeader.startsWith('Bearer ')`, spelled out over the character
list so that the kernel can evaluate it. -/
def hasBearerMarker (h : String) : Bool :=
  List.isPrefixOf "Bearer ".data h.data

/-- Characters strictly after the first space. -/
def afterFirstSpace : List Char → List Char
  | [] => []
  | c :: rest => if c = ' ' then rest else afterFirstSpace rest

/-- Characters up to (excluding) the first space. -/
def beforeFirstSpace : List Char → List Char
  | [] => []
  | c :: rest => if c = ' ' then [] else c :: beforeFirstSpace rest

/-- `authHeader.split(' ')[1]`: the characters between the first and the
second space of the header (the whole tail when there is no second
space). -/
def tokenOf (h : String) : String :=
  ⟨beforeFirstSpace (afterFirstSpace h.data)⟩

/-- `authMiddleware` (source lines 315-333): reject with 401 when the
header is absent or lacks the "Bearer " marker, otherwise verify the
token (`authHeader.split(' ')[1]`) with the identity provider and attach
the `sub` claim. -/
def authMiddleware (verify : String → Option String) (auth : Option String) : AuthResult :=
  match auth with
  | none => .unauthorized
  | some h =>
    if hasBearerMarker h then
      match verify (tokenOf h) with
      | some sub => .ok sub
      | none => .unauthorized
    else .unauthorized

/-- Result of a route handler: HTTP status, JSON array payload (used by
the list route; empty elsewhere), and the store after the request. -/
structure HttpResult where
  status : Nat
  payload : List Doc
  store : List Doc
  deriving DecidableEq, Repr

/-- `GET /api/keys` (source lines 354-361). -/
def getKeys (verify : String → Option String) (req : Request) (store : List Doc) :
    HttpResult :=
  match authMiddleware verify req.authorization with
  | .unauthorized => ⟨401, [], store⟩
  | .ok u => ⟨200, findUser store u, store⟩

/-- `POST /api/keys` (source lines 363-371): insert the body with
`user_id` force-set to the caller's subject identifier, respond 201. -/
def postKeys (verify : String → Option String) (req : Request) (store : List Doc) :
    HttpResult :=
  match authMiddleware verify req.authorization with
  | .unauthorized => ⟨401, [], store⟩
  | .ok u => ⟨201, [], store ++ [mergeOwner req.body u]⟩

/-- The update-field construction of `PUT /api/keys/:id` (source lines
376-399): reads `name`, `notes`, `favorite`, `order` from the body,
rejects (400) when all four are absent, adds the present ones, and
rejects (400) when `favorite` is present but not boolean. -/
def buildUpdateFields (body : Doc) : Except Unit Doc :=
  let name := getField body "name"
  let notes := getField body "notes"
  let favorite := getField body "favorite"
  let order := getField body "order"
  if name = none ∧ notes = none ∧ favorite = none ∧ order = none then
    .error ()
  else
    let f1 : Doc := match name with | some v => [("name", v)] | none => []
    let f2 : Doc := match notes with | some v => f1 ++ [("notes", v)] | none => f1
    let f3 : Doc := match order with | some v => f2 ++ [("order", v)] | none => f2
    match favorite with
    | none => .ok f3
    | some (JVal.bool b) => .ok (f3 ++ [("favorite", JVal.bool b)])
    | some _ => .error ()

/-- `PUT /api/keys/:id` (source lines 374-413). -/
def putKey (verify : String → Option String) (pid : String) (req : Request)
    (store : List Doc) : HttpResult :=
  match authMiddleware verify req.authorization with
  | .unauthorized => ⟨401, [], store⟩
  | .ok u =>
    match buildUpdateFields req.body with
    | .error _ => ⟨400, [], store⟩
    | .ok fields =>
      match updateFirst store pid u fields with
      | none => ⟨404, [], store⟩
      | some store2 => ⟨200, [], store2⟩

/-- `DELETE /api/keys/:id` (source lines 415-425). -/
def deleteKey (verify : String → Option String) (pid : String) (req : Request)
    (store : List Doc) : HttpResult :=
  match authMiddleware verify req.authorization with
  | .unauthorized => ⟨401, [], store⟩
  | .ok u =>
    match deleteFirst store pid u with
    | none => ⟨404, [], store⟩
    | some store2 => ⟨204, [], store2⟩

/-- `GET /api/health` (source lines 336-350): no auth middleware on the
route; answers from the cached connection flag
(`mongoClient?.topology?.isConnected()`) without touching the keys
collection. Returns status code, `status` string, and the untouched
store. -/
def healthRoute (connected : Bool) (req : Request) (store : List Doc) :
    Nat × String × List Doc :=
  if connected then (200, "OK", store)
  else (503, "SERVICE_UNAVAILABLE", store)

/-- A concrete verifier used for witnesses and counterexamples: token
"tokA" belongs to subject "A", token "tokB" to subject "B". -/
def verifyDemo : String → Option String :=
  fun t => if t = "tokA" then some "A" else if t = "tokB" then some "B" else none

/-- A concrete stored record owned by subject "A", used in witnesses. -/
def docA : Doc :=
  [("id", JVal.str "k1"), ("user_id", JVal.str "A"),
   ("value", JVal.str "secret"), ("type", JVal.str "token"),
   ("notes", JVal.str "old")]

/-- A concrete stored record owned by subject "B", used in witnesses. -/
def docB : Doc :=
  [("id", JVal.str "k2"), ("user_id", JVal.str "B"),
   ("value", JVal.str "other")]

end ApiKeys
namespace ApiKeys

theorem getField_append (l l2 : Doc) (k : String) :
    getField (l ++ l2) k = match getField l k with
      | some v => some v
      | none => getField l2 k := by
  induction l with
  | nil => simp [getField]
  | cons p rest ih =>
    obtain ⟨k1, v⟩ := p
    by_cases h : k1 = k <;> simp [getField, h, ih]

theorem getField_removeField_ne (d : Doc) (k k1 : String) (h : k1 ≠ k) :
    getField (removeField d k) k1 = getField d k1 := by
  induction d with
  | nil => rfl
  | cons p rest ih =>
    obtain ⟨k2, v⟩ := p
    have hs : k ≠ k1 := Ne.symm h
    by_cases hk : k2 = k
    · have hk2 : k2 ≠ k1 := fun he => h (he.symm.trans hk)
      simp [removeField, getField, hk, hk2, hs, ih]
    · by_cases hkk : k2 = k1 <;> simp [removeField, getField, hk, hkk, h, hs, ih]

theorem getField_removeField_self (d : Doc) (k : String) :
    getField (removeField d k) k = none := by
  induction d with
  | nil => rfl
  | cons p rest ih =>
    obtain ⟨k2, v⟩ := p
    by_cases hk : k2 = k <;> simp [removeField, getField, hk, ih]

theorem getField_setField_self (d : Doc) (k : String) (v : JVal) :
    getField (setField d k v) k = some v := by
  simp [setField, getField_append, getField_removeField_self, getField]

theorem getField_setField_ne (d : Doc) (k k1 : String) (v : JVal) (h : k1 ≠ k) :
    getField (setField d k v) k1 = getField d k1 := by
  have hne : k ≠ k1 := fun he => h he.symm
  simp [setField, getField_append, getField_removeField_ne d k k1 h, getField, hne]
  cases getField d k1 <;> simp

theorem getField_applySet_not_mem (fields : Doc) (d : Doc) (k : String)
    (h : ∀ p ∈ fields, p.1 ≠ k) :
    getField (applySet fields d) k = getField d k := by
  induction fields generalizing d with
  | nil => rfl
  | cons p rest ih =>
    obtain ⟨k1, v⟩ := p
    have step : applySet ((k1, v) :: rest) d = applySet rest (setField d k1 v) := rfl
    rw [step, ih (setField d k1 v) (fun q hq => h q (List.mem_cons_of_mem _ hq)),
      getField_setField_ne d k1 k v (Ne.symm (h (k1, v) (List.mem_cons_self _ _)))]

theorem buildUpdateFields_mem (body : Doc) (fields : Doc)
    (hf : buildUpdateFields body = .ok fields) :
    ∀ p ∈ fields, (p.1 = "name" ∨ p.1 = "notes" ∨ p.1 = "order" ∨ p.1 = "favorite") ∧
      getField body p.1 = some p.2 := by
  rcases hn : getField body "name" with _ | vn <;>
    rcases ho : getField body "notes" with _ | vo <;>
      rcases hr : getField body "order" with _ | vr <;>
        rcases hv : getField body "favorite" with _ | vv <;>
          (try rcases vv with s | n | b | _) <;>
            simp [buildUpdateFields, hn, ho, hr, hv] at hf <;>
              (subst hf; simp [List.forall_mem_cons, hn, ho, hr, hv])

theorem updateFirst_decomp (store : List Doc) (pid u : String) (fields : Doc)
    (store2 : List Doc) (hu : updateFirst store pid u fields = some store2) :
    ∃ pre d post, store = pre ++ d :: post ∧ matchesFilter d pid u = true ∧
      store2 = pre ++ applySet fields d :: post := by
  induction store generalizing store2 with
  | nil => simp [updateFirst] at hu
  | cons d rest ih =>
    by_cases hm : matchesFilter d pid u
    · refine ⟨[], d, rest, rfl, hm, ?_⟩
      simp [updateFirst, hm] at hu
      simp [hu.symm]
    · simp [updateFirst, hm] at hu
      obtain ⟨s2, hs2, hcons⟩ := hu
      obtain ⟨pre, d1, post, he, hmm, he2⟩ := ih s2 hs2
      exact ⟨d :: pre, d1, post, by simp [he], hmm, by simp [hcons.symm, he2]⟩

theorem updateFirst_none (store : List Doc) (pid u : String) (fields : Doc)
    (h : ∀ d ∈ store, matchesFilter d pid u = false) :
    updateFirst store pid u fields = none := by
  induction store with
  | nil => rfl
  | cons d rest ih =>
    simp [updateFirst, h d (List.mem_cons_self _ _),
      ih (fun e he => h e (List.mem_cons_of_mem _ he))]

theorem deleteFirst_none (store : List Doc) (pid u : String)
    (h : ∀ d ∈ store, matchesFilter d pid u = false) :
    deleteFirst store pid u = none := by
  induction store with
  | nil => rfl
  | cons d rest ih =>
    simp [deleteFirst, h d (List.mem_cons_self _ _),
      ih (fun e he => h e (List.mem_cons_of_mem _ he))]

/-- Claim C1: for every authenticated Create request, the record persisted
by the store has its `user_id` field equal to the caller's verified subject
identifier, regardless of any owner value supplied in the request body; a
client-supplied owner value never survives into the stored record. -/
theorem create_persists_caller_as_owner (verify : String → Option String)
    (req : Request) (store : List Doc) (u : String)
    (hauth : authMiddleware verify req.authorization = .ok u) :
    (postKeys verify req store).status = 201 ∧
    (postKeys verify req store).store = store ++ [mergeOwner req.body u] ∧
    getField (mergeOwner req.body u) "user_id" = some (JVal.str u) := by
  refine ⟨?_, ?_, ?_⟩ <;>
    simp [postKeys, hauth, mergeOwner, getField_setField_self]

/-- Witness for C1: subject "A" creates a record whose body claims
`user_id` "EVIL"; the stored record's owner is "A". -/
theorem create_persists_caller_as_owner_witness :
    authMiddleware verifyDemo (Request.mk (some "Bearer tokA")
        [("user_id", JVal.str "EVIL")]).authorization = .ok "A" ∧
    ((postKeys verifyDemo (Request.mk (some "Bearer tokA")
        [("user_id", JVal.str "EVIL")]) []).status = 201 ∧
      (postKeys verifyDemo (Request.mk (some "Bearer tokA")
        [("user_id", JVal.str "EVIL")]) []).store =
        [] ++ [mergeOwner [("user_id", JVal.str "EVIL")] "A"] ∧
      getField (mergeOwner [("user_id", JVal.str "EVIL")] "A") "user_id" =
        some (JVal.str "A")) :=
  ⟨by decide, create_persists_caller_as_owner verifyDemo
    (Request.mk (some "Bearer tokA") [("user_id", JVal.str "EVIL")]) [] "A" (by decide)⟩

/-- Claim C2 counterexample: an authenticated Update whose body has no
recognized field, aimed at a record id that does not exist (empty store),
returns 400, not the 404 the claim requires for every such request. -/
theorem update_unowned_counterexample :
    (∀ d ∈ ([] : List Doc), matchesFilter d "k1" "A" = false) ∧
    (putKey verifyDemo "k1" (Request.mk (some "Bearer tokA") []) []).status = 400 ∧
    (putKey verifyDemo "k1" (Request.mk (some "Bearer tokA") []) []).status ≠ 404 := by
  decide

/-- Claim C2 (amended): for every authenticated Delete request, and for
every authenticated Update request whose body passes validation, aimed at
a record id that does not exist or is owned by a different subject, the
response is 404 (the same not-found error in both cases), never 200/204,
and the store is unchanged. -/
theorem update_delete_unowned_is_404 (verify : String → Option String)
    (pid u : String) (req : Request) (store : List Doc)
    (hauth : authMiddleware verify req.authorization = .ok u)
    (hnone : ∀ d ∈ store, matchesFilter d pid u = false) :
    deleteKey verify pid req store = ⟨404, [], store⟩ ∧
    (∀ fields, buildUpdateFields req.body = .ok fields →
      putKey verify pid req store = ⟨404, [], store⟩) := by
  constructor
  · simp [deleteKey, hauth, deleteFirst_none store pid u hnone]
  · intro fields hfld
    simp [putKey, hauth, hfld, updateFirst_none store pid u fields hnone]

/-- Witness for the amended C2: subject "A" updates/deletes "k2", which is
owned by "B"; both get 404 and the store keeps the record. -/
theorem update_delete_unowned_is_404_witness :
    authMiddleware verifyDemo (Request.mk (some "Bearer tokA")
        [("notes", JVal.str "new")]).authorization = .ok "A" ∧
    (∀ d ∈ [docB], matchesFilter d "k2" "A" = false) ∧
    (deleteKey verifyDemo "k2" (Request.mk (some "Bearer tokA")
        [("notes", JVal.str "new")]) [docB] = ⟨404, [], [docB]⟩ ∧
      (∀ fields, buildUpdateFields [("notes", JVal.str "new")] = .ok fields →
        putKey verifyDemo "k2" (Request.mk (some "Bearer tokA")
          [("notes", JVal.str "new")]) [docB] = ⟨404, [], [docB]⟩)) :=
  ⟨by decide, by decide, update_delete_unowned_is_404 verifyDemo "k2" "A"
    (Request.mk (some "Bearer tokA") [("notes", JVal.str "new")]) [docB]
    (by decide) (by decide)⟩

/-- Claim C3 counterexample: the create handler never defaults `favorite`:
a Create whose body omits `favorite` stores a record with no `favorite`
field at all, so the stored (and listed) value is not `false`. -/
theorem create_favorite_counterexample :
    (postKeys verifyDemo (Request.mk (some "Bearer tokA")
        [("id", JVal.str "k1"), ("name", JVal.str "svc")]) []).status = 201 ∧
    (postKeys verifyDemo (Request.mk (some "Bearer tokA")
        [("id", JVal.str "k1"), ("name", JVal.str "svc")]) []).store =
      [[("id", JVal.str "k1"), ("name", JVal.str "svc"), ("user_id", JVal.str "A")]] ∧
    getField [("id", JVal.str "k1"), ("name", JVal.str "svc"),
      ("user_id", JVal.str "A")] "favorite" = none ∧
    getField [("id", JVal.str "k1"), ("name", JVal.str "svc"),
      ("user_id", JVal.str "A")] "favorite" ≠ some (JVal.bool false) := by
  decide

/-- Claim C3 (amended): for every authenticated Create whose body omits
`favorite`, the stored record likewise has no `favorite` field (the code
does not default it to false); every other supplied field survives
unchanged, `user_id` is server-assigned, and a subsequent List by the same
identity returns the created record. -/
theorem create_roundtrip_favorite_absent (verify : String → Option String)
    (req : Request) (store : List Doc) (u : String)
    (hauth : authMiddleware verify req.authorization = .ok u)
    (hfav : getField req.body "favorite" = none) :
    (postKeys verify req store).status = 201 ∧
    (postKeys verify req store).store = store ++ [mergeOwner req.body u] ∧
    getField (mergeOwner req.body u) "user_id" = some (JVal.str u) ∧
    getField (mergeOwner req.body u) "favorite" = none ∧
    (∀ k, k ≠ "user_id" → getField (mergeOwner req.body u) k = getField req.body k) ∧
    mergeOwner req.body u ∈
      (getKeys verify req ((postKeys verify req store).store)).payload := by
  have howner : getField (mergeOwner req.body u) "user_id" = some (JVal.str u) :=
    getField_setField_self req.body "user_id" (JVal.str u)
  have hother : ∀ k, k ≠ "user_id" →
      getField (mergeOwner req.body u) k = getField req.body k :=
    fun k hk => getField_setField_ne req.body "user_id" k (JVal.str u) hk
  refine ⟨by simp [postKeys, hauth], by simp [postKeys, hauth], howner, ?_, hother, ?_⟩
  · rw [hother "favorite" (by decide)]
    exact hfav
  · simp only [postKeys, hauth, getKeys, findUser]
    refine List.mem_filter.mpr ⟨List.mem_append_right store (List.mem_singleton.mpr rfl), ?_⟩
    simp [howner]

/-- Witness for the amended C3: create a record without `favorite` under
subject "A" and observe it in the subsequent list, with no `favorite`
field and `user_id` set to "A". -/
theorem create_roundtrip_favorite_absent_witness :
    authMiddleware verifyDemo (Request.mk (some "Bearer tokA")
        [("id", JVal.str "k1"), ("name", JVal.str "svc")]).authorization = .ok "A" ∧
    getField [("id", JVal.str "k1"), ("name", JVal.str "svc")] "favorite" = none ∧
    ((postKeys verifyDemo (Request.mk (some "Bearer tokA")
        [("id", JVal.str "k1"), ("name", JVal.str "svc")]) []).status = 201 ∧
      (postKeys verifyDemo (Request.mk (some "Bearer tokA")
        [("id", JVal.str "k1"), ("name", JVal.str "svc")]) []).store =
        [] ++ [mergeOwner [("id", JVal.str "k1"), ("name", JVal.str "svc")] "A"] ∧
      getField (mergeOwner [("id", JVal.str "k1"), ("name", JVal.str "svc")] "A")
        "user_id" = some (JVal.str "A") ∧
      getField (mergeOwner [("id", JVal.str "k1"), ("name", JVal.str "svc")] "A")
        "favorite" = none ∧
      (∀ k, k ≠ "user_id" →
        getField (mergeOwner [("id", JVal.str "k1"), ("name", JVal.str "svc")] "A") k =
          getField [("id", JVal.str "k1"), ("name", JVal.str "svc")] k) ∧
      mergeOwner [("id", JVal.str "k1"), ("name", JVal.str "svc")] "A" ∈
        (getKeys verifyDemo (Request.mk (some "Bearer tokA")
          [("id", JVal.str "k1"), ("name", JVal.str "svc")])
          ((postKeys verifyDemo (Request.mk (some "Bearer tokA")
            [("id", JVal.str "k1"), ("name", JVal.str "svc")]) []).store)).payload) :=
  ⟨by decide, by decide, create_roundtrip_favorite_absent verifyDemo
    (Request.mk (some "Bearer tokA") [("id", JVal.str "k1"), ("name", JVal.str "svc")])
    [] "A" (by decide) (by decide)⟩

/-- Claim C4: a request to any protected route (List, Create, Update,
Delete) whose Authorization header is absent or lacks the "Bearer "
marker gets a 401 response and the store is untouched (the handler body,
and with it the store layer, is never reached). -/
theorem missing_bearer_401_no_store_op (verify : String → Option String)
    (pid : String) (req : Request) (store : List Doc)
    (hbad : ∀ h, req.authorization = some h → hasBearerMarker h = false) :
    getKeys verify req store = ⟨401, [], store⟩ ∧
    postKeys verify req store = ⟨401, [], store⟩ ∧
    putKey verify pid req store = ⟨401, [], store⟩ ∧
    deleteKey verify pid req store = ⟨401, [], store⟩ := by
  have hu : authMiddleware verify req.authorization = .unauthorized := by
    cases hh : req.authorization with
    | none => rfl
    | some h => simp [authMiddleware, hbad h hh]
  refine ⟨?_, ?_, ?_, ?_⟩ <;> simp [getKeys, postKeys, putKey, deleteKey, hu]

/-- Witness for C4: a header without the "Bearer " marker is rejected with
401 on all four routes and the store (holding one record) is untouched. -/
theorem missing_bearer_401_no_store_op_witness :
    (∀ h, (Request.mk (some "Token tokA") []).authorization = some h →
      hasBearerMarker h = false) ∧
    (getKeys verifyDemo (Request.mk (some "Token tokA") []) [docA] = ⟨401, [], [docA]⟩ ∧
      postKeys verifyDemo (Request.mk (some "Token tokA") []) [docA] = ⟨401, [], [docA]⟩ ∧
      putKey verifyDemo "k1" (Request.mk (some "Token tokA") []) [docA] = ⟨401, [], [docA]⟩ ∧
      deleteKey verifyDemo "k1" (Request.mk (some "Token tokA") []) [docA] = ⟨401, [], [docA]⟩) :=
  ⟨fun h hh => by injection hh with hh2; subst hh2; decide,
    missing_bearer_401_no_store_op verifyDemo "k1" (Request.mk (some "Token tokA") []) [docA]
      (fun h hh => by injection hh with hh2; subst hh2; decide)⟩

/-- Claim C5: an authenticated Update whose body contains none of the
recognized mutable fields (name, notes, favorite, order) gets 400 and the
store is not written. -/
theorem update_no_recognized_field_400 (verify : String → Option String)
    (pid u : String) (req : Request) (store : List Doc)
    (hauth : authMiddleware verify req.authorization = .ok u)
    (hname : getField req.body "name" = none)
    (hnotes : getField req.body "notes" = none)
    (hfav : getField req.body "favorite" = none)
    (hord : getField req.body "order" = none) :
    putKey verify pid req store = ⟨400, [], store⟩ := by
  simp [putKey, hauth, buildUpdateFields, hname, hnotes, hfav, hord]

/-- Witness for C5: an update body holding only the unrecognized field
`value` gets 400 and the store keeps the record unchanged. -/
theorem update_no_recognized_field_400_witness :
    authMiddleware verifyDemo (Request.mk (some "Bearer tokA")
        [("value", JVal.str "x")]).authorization = .ok "A" ∧
    getField [("value", JVal.str "x")] "name" = none ∧
    getField [("value", JVal.str "x")] "notes" = none ∧
    getField [("value", JVal.str "x")] "favorite" = none ∧
    getField [("value", JVal.str "x")] "order" = none ∧
    putKey verifyDemo "k1" (Request.mk (some "Bearer tokA")
      [("value", JVal.str "x")]) [docA] = ⟨400, [], [docA]⟩ :=
  ⟨by decide, by decide, by decide, by decide, by decide,
    update_no_recognized_field_400 verifyDemo "k1" "A"
      (Request.mk (some "Bearer tokA") [("value", JVal.str "x")]) [docA]
      (by decide) (by decide) (by decide) (by decide) (by decide)⟩

/-- Claim C6: an authenticated Update whose body holds a non-boolean
`favorite` gets 400 and the store is not written, even when other
recognized fields are present in the body. -/
theorem update_nonbool_favorite_400 (verify : String → Option String)
    (pid u : String) (req : Request) (store : List Doc) (v : JVal)
    (hauth : authMiddleware verify req.authorization = .ok u)
    (hfav : getField req.body "favorite" = some v)
    (hnb : ∀ b, v ≠ JVal.bool b) :
    putKey verify pid req store = ⟨400, [], store⟩ := by
  have herr : buildUpdateFields req.body = .error () := by
    rcases v with s | n | b | _
    · simp [buildUpdateFields, hfav]
    · simp [buildUpdateFields, hfav]
    · exact absurd rfl (hnb b)
    · simp [buildUpdateFields, hfav]
  simp [putKey, hauth, herr]

/-- Witness for C6: `favorite` set to the string "yes" next to the
recognized field `name` still gets 400 and leaves the store unchanged. -/
theorem update_nonbool_favorite_400_witness :
    authMiddleware verifyDemo (Request.mk (some "Bearer tokA")
        [("name", JVal.str "n"), ("favorite", JVal.str "yes")]).authorization = .ok "A" ∧
    getField [("name", JVal.str "n"), ("favorite", JVal.str "yes")] "favorite" =
      some (JVal.str "yes") ∧
    (∀ b, JVal.str "yes" ≠ JVal.bool b) ∧
    putKey verifyDemo "k1" (Request.mk (some "Bearer tokA")
      [("name", JVal.str "n"), ("favorite", JVal.str "yes")]) [docA] = ⟨400, [], [docA]⟩ :=
  ⟨by decide, by decide, by decide,
    update_nonbool_favorite_400 verifyDemo "k1" "A"
      (Request.mk (some "Bearer tokA") [("name", JVal.str "n"), ("favorite", JVal.str "yes")])
      [docA] (JVal.str "yes") (by decide) (by decide) (by decide)⟩

/-- Claim C7: an authenticated List request returns exactly the records
whose `user_id` equals the caller's subject identifier: a document is in
the returned array iff it is in the store and is owned by the caller. -/
theorem list_returns_exactly_owned (verify : String → Option String)
    (req : Request) (store : List Doc) (u : String) (d : Doc)
    (hauth : authMiddleware verify req.authorization = .ok u) :
    (getKeys verify req store).status = 200 ∧
    (d ∈ (getKeys verify req store).payload ↔
      d ∈ store ∧ getField d "user_id" = some (JVal.str u)) := by
  constructor
  · simp [getKeys, hauth]
  · simp [getKeys, hauth, findUser, List.mem_filter]

/-- Witness for C7: with one record of "A" and one of "B" in the store,
subject "A" lists and the characterization is checked at "A"'s record
(which is both in the store and owned by "A", hence in the payload). -/
theorem list_returns_exactly_owned_witness :
    authMiddleware verifyDemo (Request.mk (some "Bearer tokA") []).authorization = .ok "A" ∧
    ((getKeys verifyDemo (Request.mk (some "Bearer tokA") []) [docA, docB]).status = 200 ∧
      (docA ∈ (getKeys verifyDemo (Request.mk (some "Bearer tokA") []) [docA, docB]).payload ↔
        docA ∈ [docA, docB] ∧ getField docA "user_id" = some (JVal.str "A"))) :=
  ⟨by decide, list_returns_exactly_owned verifyDemo
    (Request.mk (some "Bearer tokA") []) [docA, docB] "A" docA (by decide)⟩

/-- Claim C8: a successful Update modifies only the recognized fields
actually present in the request body of the single matched record; every
other field of that record — in particular `user_id` — keeps its prior
value, and no other record is touched. -/
theorem update_success_frame (verify : String → Option String)
    (pid u : String) (req : Request) (store store2 : List Doc) (fields : Doc)
    (hauth : authMiddleware verify req.authorization = .ok u)
    (hfld : buildUpdateFields req.body = .ok fields)
    (hupd : updateFirst store pid u fields = some store2) :
    putKey verify pid req store = ⟨200, [], store2⟩ ∧
    ∃ pre d post, store = pre ++ d :: post ∧ matchesFilter d pid u = true ∧
      store2 = pre ++ applySet fields d :: post ∧
      (∀ k, getField req.body k = none →
        getField (applySet fields d) k = getField d k) ∧
      (∀ k, k ≠ "name" → k ≠ "notes" → k ≠ "order" → k ≠ "favorite" →
        getField (applySet fields d) k = getField d k) ∧
      getField (applySet fields d) "user_id" = getField d "user_id" := by
  have hmem := buildUpdateFields_mem req.body fields hfld
  obtain ⟨pre, d, post, he, hm, he2⟩ := updateFirst_decomp store pid u fields store2 hupd
  have hrec : ∀ k, k ≠ "name" → k ≠ "notes" → k ≠ "order" → k ≠ "favorite" →
      getField (applySet fields d) k = getField d k := by
    intro k h1 h2 h3 h4
    refine getField_applySet_not_mem fields d k (fun p hp hpk => ?_)
    rcases (hmem p hp).1 with h | h | h | h <;> rw [hpk] at h <;> simp_all
  refine ⟨by simp [putKey, hauth, hfld, hupd], pre, d, post, he, hm, he2, ?_, hrec, ?_⟩
  · intro k hk
    refine getField_applySet_not_mem fields d k (fun p hp hpk => ?_)
    have hb := (hmem p hp).2
    rw [hpk, hk] at hb
    exact Option.noConfusion hb
  · exact hrec "user_id" (by decide) (by decide) (by decide) (by decide)

/-- Witness for C8: subject "A" updates record "k1" setting `notes` and
`favorite`; the matched record keeps `id`, `user_id`, `value`, `type`, and
the unrelated record of "B" is untouched. -/
theorem update_success_frame_witness :
    authMiddleware verifyDemo (Request.mk (some "Bearer tokA")
        [("notes", JVal.str "new"), ("favorite", JVal.bool true)]).authorization = .ok "A" ∧
    buildUpdateFields [("notes", JVal.str "new"), ("favorite", JVal.bool true)] =
      .ok [("notes", JVal.str "new"), ("favorite", JVal.bool true)] ∧
    updateFirst [docB, docA] "k1" "A"
        [("notes", JVal.str "new"), ("favorite", JVal.bool true)] =
      some [docB, applySet [("notes", JVal.str "new"), ("favorite", JVal.bool true)] docA] ∧
    (putKey verifyDemo "k1" (Request.mk (some "Bearer tokA")
        [("notes", JVal.str "new"), ("favorite", JVal.bool true)]) [docB, docA] =
      ⟨200, [], [docB, applySet [("notes", JVal.str "new"), ("favorite", JVal.bool true)] docA]⟩ ∧
      ∃ pre d post, [docB, docA] = pre ++ d :: post ∧ matchesFilter d "k1" "A" = true ∧
        [docB, applySet [("notes", JVal.str "new"), ("favorite", JVal.bool true)] docA] =
          pre ++ applySet [("notes", JVal.str "new"), ("favorite", JVal.bool true)] d :: post ∧
        (∀ k, getField [("notes", JVal.str "new"), ("favorite", JVal.bool true)] k = none →
          getField (applySet [("notes", JVal.str "new"), ("favorite", JVal.bool true)] d) k =
            getField d k) ∧
        (∀ k, k ≠ "name" → k ≠ "notes" → k ≠ "order" → k ≠ "favorite" →
          getField (applySet [("notes", JVal.str "new"), ("favorite", JVal.bool true)] d) k =
            getField d k) ∧
        getField (applySet [("notes", JVal.str "new"), ("favorite", JVal.bool true)] d)
            "user_id" = getField d "user_id") :=
  ⟨by decide, by rfl, by decide,
    update_success_frame verifyDemo "k1" "A"
      (Request.mk (some "Bearer tokA") [("notes", JVal.str "new"), ("favorite", JVal.bool true)])
      [docB, docA] [docB, applySet [("notes", JVal.str "new"), ("favorite", JVal.bool true)] docA]
      [("notes", JVal.str "new"), ("favorite", JVal.bool true)]
      (by decide) (by rfl) (by decide)⟩

/-- Claim C9: the health endpoint runs no auth middleware and answers from
the cached connection flag alone: 200 with status "OK" exactly when the
connection is detected as up, 503 with status "SERVICE_UNAVAILABLE" when
it is down, never touching the store and ignoring the request entirely. -/
theorem health_route_reports_connection :
    (∀ req store, healthRoute true req store = (200, "OK", store)) ∧
    (∀ req store, healthRoute false req store = (503, "SERVICE_UNAVAILABLE", store)) ∧
    (∀ c req req2 store, healthRoute c req store = healthRoute c req2 store) := by
  refine ⟨fun req store => rfl, fun req store => rfl, fun c req req2 store => ?_⟩
  cases c <;> rfl

/-- Claim C10: the Mongo create handler performs no validation of the
payload: every authenticated Create — including one with an empty body,
hence with `id`, `name`, `value`, `type` all absent — inserts the body
as-is (merged with the server-set `user_id`) and answers 201. -/
theorem create_no_validation (verify : String → Option String)
    (req : Request) (store : List Doc) (u : String)
    (hauth : authMiddleware verify req.authorization = .ok u) :
    postKeys verify req store = ⟨201, [], store ++ [mergeOwner req.body u]⟩ ∧
    (∀ k, k ≠ "user_id" → getField (mergeOwner req.body u) k = getField req.body k) := by
  refine ⟨by simp [postKeys, hauth], fun k hk => ?_⟩
  exact getField_setField_ne req.body "user_id" k (JVal.str u) hk

/-- Witness for C10: an authenticated Create with a completely empty body
(`id`, `name`, `value`, `type` all absent) is inserted and answers 201. -/
theorem create_no_validation_witness :
    authMiddleware verifyDemo (Request.mk (some "Bearer tokA") []).authorization = .ok "A" ∧
    (postKeys verifyDemo (Request.mk (some "Bearer tokA") []) [] =
        ⟨201, [], [] ++ [mergeOwner [] "A"]⟩ ∧
      (∀ k, k ≠ "user_id" → getField (mergeOwner [] "A") k = getField [] k)) :=
  ⟨by decide, create_no_validation verifyDemo (Request.mk (some "Bearer tokA") []) [] "A"
    (by decide)⟩

end ApiKeys
